import Mathlib

/-!
Verification of the OMT batch scan runner (src/OMT.py) against its
specification. The Python source is shallowly embedded below: each
Python function is translated to a Lean function, with the effectful
parts (the external process, the filesystem copy, the wall clock)
passed in explicitly as oracles, so that the pure control flow of the
source is captured exactly.

Modelling conventions:
  - A Python dict entry of a scan (keys "name" and "target") becomes
    the structure `Scan` with `Option String` fields: `none` models an
    absent key.
  - Python truthiness of an optional string (`if not target`) is
    `pyFalsyStr`: true on an absent key and on the empty string.
  - `run_nmap` returns `Except String Outcome`: `Except.error msg`
    models the function raising an exception with message `msg` to its
    caller (the `raise ValueError` at src/OMT.py line 74 sits OUTSIDE
    the try block that starts at line 95, so it escapes), while
    `Except.ok` models a normal return of the result dict.
  - The external process is an oracle `JobEnv`: the timestamp the
    runner reads from the clock at launch, the result of spawning the
    process (`Except.error` models a spawn exception such as a missing
    nmap binary, caught by the catch-all at lines 141-147), and the
    result of the post-success `shutil.copy2` call at line 126.
  - The `ProcBehavior` record carries everything the external process
    does that the code could observe: exit code, stdout lines, stderr
    text, and how many seconds it runs. The embedded `run_nmap` never
    consults `durationSeconds`, faithfully to the source: the
    `timeout=int(timeout)` keyword is commented out at line 103,
    `Popen` is invoked without a deadline and `result.wait()` is called
    with no timeout argument, so nothing in the function can raise
    `subprocess.TimeoutExpired` and the handler at lines 135-140 is
    unreachable.
  - The stdout progress-filter loop at lines 107-112 only prints; it
    changes no state that later code reads, so it has no counterpart
    in the embedding beyond the captured `stdoutLines`.
  - `main` (lines 150-229) is split into `main_setup`, the
    pre-scheduling validation of the loaded config, and `run_batch`,
    the submit-and-collect loop over the thread pool. `as_completed`
    yields every future exactly once in nondeterministic completion
    order; `run_batch` fixes submission order as the completion order,
    which is harmless for the properties proved here (batch
    completion and the multiset of outcomes are permutation
    invariant), and models the loop body faithfully: `future.result()`
    re-raises any exception the worker raised, aborting the loop.
-/

/-- One entry of the `scans` list of the JSON config.
`scan.get("name", "scan")` and `scan.get("target")` at
src/OMT.py lines 67-68. -/
structure Scan where
  name : Option String
  target : Option String
deriving DecidableEq, Repr

/-- Everything observable of the spawned external process. -/
structure ProcBehavior where
  exitCode : Int
  stdoutLines : List String
  stderrText : String
  durationSeconds : Nat
deriving DecidableEq, Repr

/-- Result of the `shutil.copy2(xml_file, backup_file)` call at
src/OMT.py line 126: `fail msg` models the call raising an exception
whose `str` is `msg` (for example a missing XML file). -/
inductive CopyResult where
  | ok : CopyResult
  | fail : String → CopyResult
deriving DecidableEq, Repr

/-- The effectful context of one `run_nmap` invocation: the launch
timestamp read from the clock, the outcome of spawning the process,
and the outcome of the post-success copy. -/
structure JobEnv where
  timestamp : String
  spawn : Except String ProcBehavior
  copy : CopyResult
deriving Repr

/-- The result dict built by `run_nmap`: always the keys `name` and
`status`, plus one payload key depending on the status
(src/OMT.py lines 118-122, 130-134, 136-140, 143-147). -/
structure Outcome where
  name : String
  status : String
  stderr : Option String := none
  output : Option String := none
  errMsg : Option String := none
deriving DecidableEq, Repr

/-- Python truthiness test of an optional string: `if not x` is taken
when the key is absent or the string is empty. -/
def pyFalsyStr : Option String → Bool
  | none => true
  | some s => s.isEmpty

/-- Whitespace split at the character level, the semantics of the
Python builtin `args.split()` at src/OMT.py line 86: split on runs of
whitespace, discarding leading and trailing whitespace, never
producing an empty token. `acc` holds the reversed characters of the
token currently being read. -/
def splitWsAux : List Char → List Char → List (List Char)
  | [], acc => if acc.isEmpty then [] else [acc.reverse]
  | c :: cs, acc =>
    if c.isWhitespace then
      if acc.isEmpty then splitWsAux cs [] else acc.reverse :: splitWsAux cs []
    else
      splitWsAux cs (c :: acc)

/-- `args.split()` of Python, on `String`. -/
def pySplit (s : String) : List String :=
  (splitWsAux s.data []).map fun l => String.mk l

/-- `f"{name}_{timestamp}"` at src/OMT.py line 78. -/
def scan_filename (name timestamp : String) : String :=
  name ++ "_" ++ timestamp

/-- `output_dir / filename` at src/OMT.py line 79 (pathlib join). -/
def joinPath (dir file : String) : String :=
  dir ++ "/" ++ file

/-- `f"{name}_latest.xml"` joined under the output dir,
src/OMT.py line 125. The path depends on the job name only, never on
the timestamp. -/
def latest_path (output_dir name : String) : String :=
  joinPath output_dir (name ++ "_latest.xml")

/-- The argv list built at src/OMT.py lines 84-90. The command is a
token LIST (subprocess.Popen without shell=True), never a shell
string. -/
def build_cmd (args target output_file : String) : List String :=
  ["nmap"] ++ pySplit args ++ [target, "-oA", output_file]

/-- Shallow embedding of `run_nmap(scan, args, timeout, output_dir)`
at src/OMT.py lines 47-147. `tmo` is the config-level `timeout` value
passed from `main`; the source only ever mentions it inside the
unreachable `TimeoutExpired` handler message, so it is unused here
exactly as it is unused there. -/
def run_nmap (scan : Scan) (args : String) (tmo : Option Nat)
    (output_dir : String) (env : JobEnv) : Except String Outcome :=
  let name := scan.name.getD "scan"
  -- lines 73-74: `if not target: raise ValueError(...)` -- this raise
  -- is before the try block, so it escapes to the caller.
  if pyFalsyStr scan.target then
    Except.error "Scan entry missing \x27target\x27 field"
  else
    let target := scan.target.getD ""
    let filename := scan_filename name env.timestamp
    let output_file := joinPath output_dir filename
    let _cmd := build_cmd args target output_file
    -- try block, lines 95-147
    match env.spawn with
    | Except.error e =>
        -- spawn raised; caught by the catch-all at lines 141-147
        Except.ok { name := name, status := "exception", errMsg := some e }
    | Except.ok proc =>
        -- lines 107-113: progress filtering (print only), then wait()
        if proc.exitCode ≠ 0 then
          -- lines 117-122
          Except.ok { name := name, status := "error",
                      stderr := some proc.stderrText }
        else
          -- lines 123-127: copy the XML output to the latest path;
          -- a failure here is caught by the catch-all at lines 141-147
          match env.copy with
          | CopyResult.fail msg =>
              Except.ok { name := name, status := "exception",
                          errMsg := some msg }
          | CopyResult.ok =>
              -- lines 130-134
              Except.ok { name := name, status := "success",
                          output := some output_file }

/-- The status an observer of the thread pool sees for one job: the
status string of the returned dict, or "raised" when `run_nmap` let an
exception escape to `future.result()`. -/
def status_of : Except String Outcome → String
  | Except.error _ => "raised"
  | Except.ok r => r.status

/-- The loaded JSON config as read by `main` at src/OMT.py
lines 166-168: `config.get("scans", [])`, `config.get("args")`,
`config.get("timeout")`. -/
structure Config where
  scans : Option (List Scan)
  args : Option String
  timeout : Option Nat

/-- `max_workers = min(4, len(scans))` at src/OMT.py line 184. -/
def max_workers (scans : List Scan) : Nat :=
  min 4 scans.length

/-- What `main` has decided by the time scheduling would start:
either a fatal abort (`sys.exit(1)`) with the printed message, or a
scheduled run carrying the jobs, shared args, timeout and worker
count. -/
inductive MainPhase where
  | fatal : String → MainPhase
  | scheduled : List Scan → String → Option Nat → Nat → MainPhase
deriving Repr

/-- The pre-scheduling part of `main`, src/OMT.py lines 166-187:
read `scans`, `args`, `timeout` from the config, abort on a falsy
scans list or falsy args, otherwise proceed to the pool with
`max_workers`. -/
def main_setup (config : Config) : MainPhase :=
  let scans := config.scans.getD []
  if scans.isEmpty then
    MainPhase.fatal "No scans defined in JSON"
  else if pyFalsyStr config.args then
    MainPhase.fatal "No args defined in JSON"
  else
    MainPhase.scheduled scans (config.args.getD "") config.timeout
      (max_workers scans)

/-- True when `main_setup` aborted the run before scheduling. -/
def MainPhase.isFatal : MainPhase → Bool
  | MainPhase.fatal _ => true
  | MainPhase.scheduled _ _ _ _ => false

/-- Number of jobs handed to the thread pool (hence of external
processes that scheduling will launch): zero on a fatal abort. -/
def MainPhase.jobsSubmitted : MainPhase → Nat
  | MainPhase.fatal _ => 0
  | MainPhase.scheduled jobs _ _ _ => jobs.length

/-- The `for future in as_completed(futures)` loop of `main` at
src/OMT.py lines 206-213: `future.result()` re-raises any exception
the worker raised, which aborts the loop (and `main`); otherwise each
result is appended exactly once. -/
def collectResults : List (Except String Outcome) → Except String (List Outcome)
  | [] => Except.ok []
  | Except.error m :: _ => Except.error m
  | Except.ok r :: rest =>
      match collectResults rest with
      | Except.ok rs => Except.ok (r :: rs)
      | Except.error m => Except.error m

/-- The scheduling phase of `main`, src/OMT.py lines 187-213: submit
one `run_nmap` job per scan (line 198-201) and collect every result.
`env i` is the effectful context the i-th job runs in. Completion
order is modelled as submission order; the properties proved below
are invariant under permutation of completions. -/
def run_batch (scans : List Scan) (args : String) (tmo : Option Nat)
    (output_dir : String) (env : Nat → JobEnv) : Except String (List Outcome) :=
  collectResults (scans.enum.map fun p => run_nmap p.2 args tmo output_dir (env p.1))

/-- Last-writer-wins state of one filesystem path: folding a sequence
of copies onto the `<name>_latest.xml` path, as successive successful
jobs overwrite it (src/OMT.py line 126). -/
def apply_copies (writes : List String) : Option String :=
  writes.foldl (fun _ w => some w) none

/-! ## Helper lemmas -/

theorem string_append_cancel_left {a b c : String} (h : a ++ b = a ++ c) :
    b = c := by
  apply String.ext
  have hd := congrArg String.data h
  rw [String.data_append, String.data_append] at hd
  exact List.append_cancel_left hd

/-! ## Theorems about the claims -/

/-- Claim C1 (code_bug evaluation): the batch does NOT always complete
with one Outcome per descriptor. Concretely, a batch of two
descriptors in which the second lacks a `target` aborts: `run_nmap`
raises `ValueError` at src/OMT.py line 74 (before its try block), the
exception re-surfaces from `future.result()` at line 211, and the
collection loop of `main` dies before producing a summary — no final
results list with two Outcomes ever exists. -/
theorem run_batch_aborts_on_missing_target :
    run_batch
      [ { name := some "a", target := some "10.0.0.1" },
        { name := some "b", target := none } ]
      "-sV" (some 30) "results"
      (fun _ =>
        { timestamp := "20240101_000000",
          spawn := Except.ok
            { exitCode := 0, stdoutLines := [], stderrText := "",
              durationSeconds := 1 },
          copy := CopyResult.ok })
      = Except.error "Scan entry missing \x27target\x27 field" := by
  rfl

/-- Claim C2 (code_bug evaluation): the configured timeout is never
enforced. First conjunct: no input whatsoever can make `run_nmap`
produce a `timeout` status — the `subprocess.TimeoutExpired` handler
at src/OMT.py lines 135-140 is unreachable because the
`timeout=int(timeout)` keyword at line 103 is commented out and
`result.wait()` at line 113 is called without a deadline. Second
conjunct: a job with a 1-second timeout whose process runs 9999
seconds is simply awaited to completion and classified `success`. -/
theorem run_nmap_never_returns_timeout :
    (∀ (scan : Scan) (args : String) (tmo : Option Nat) (d : String)
       (e : JobEnv),
      (status_of (run_nmap scan args tmo d e) == "timeout") = false) ∧
    run_nmap { name := some "web", target := some "10.0.0.1" } "-sV"
      (some 1) "results"
      { timestamp := "20240101_000000",
        spawn := Except.ok
          { exitCode := 0, stdoutLines := [], stderrText := "",
            durationSeconds := 9999 },
        copy := CopyResult.ok }
      = Except.ok { name := "web", status := "success",
                    output := some "results/web_20240101_000000" } := by
  constructor
  · intro scan args tmo d e
    obtain ⟨ts, spawn, copy⟩ := e
    by_cases ht : pyFalsyStr scan.target = true
    · simp [run_nmap, status_of, ht]
    · rcases spawn with m | proc
      · simp [run_nmap, status_of, ht]
      · by_cases hc : proc.exitCode = 0
        · rcases copy with _ | msg <;> simp [run_nmap, status_of, ht, hc]
        · simp [run_nmap, status_of, ht, hc]
  · rfl

/-- Claim C3 (code_bug evaluation): a descriptor with a missing (or
empty) `target` makes `run_nmap` RAISE a `ValueError` to its caller —
the `raise` at src/OMT.py lines 73-74 sits before the `try` of
line 95 — instead of returning an `exception` Outcome. (It is true
that no external process is launched; but the error escapes the
Runner, contradicting the docstring at lines 61-63.) -/
theorem run_nmap_raises_on_missing_target :
    run_nmap { name := some "noTarget", target := none } "-sV" (some 30)
      "results"
      { timestamp := "20240101_000001",
        spawn := Except.ok
          { exitCode := 0, stdoutLines := [], stderrText := "",
            durationSeconds := 1 },
        copy := CopyResult.ok }
      = Except.error "Scan entry missing \x27target\x27 field" ∧
    run_nmap { name := some "emptyTarget", target := some "" } "-sV"
      (some 30) "results"
      { timestamp := "20240101_000001",
        spawn := Except.ok
          { exitCode := 0, stdoutLines := [], stderrText := "",
            durationSeconds := 1 },
        copy := CopyResult.ok }
      = Except.error "Scan entry missing \x27target\x27 field" :=
  ⟨rfl, rfl⟩

/-- Claim C4 (counterexample): a zero exit code does NOT always yield
a `success` Outcome. At src/OMT.py lines 123-127 the zero-exit branch
first copies the XML output file to the latest path; when that copy
raises (here: the XML file is missing), the catch-all at lines 141-147
turns the job into an `exception` Outcome even though the process
exited 0. -/
theorem zero_exit_with_failed_copy_not_success :
    run_nmap { name := some "cx4", target := some "10.0.0.4" } "-sV"
      (some 30) "results"
      { timestamp := "20240101_101010",
        spawn := Except.ok
          { exitCode := 0, stdoutLines := [], stderrText := "",
            durationSeconds := 2 },
        copy := CopyResult.fail "No such file or directory" }
      = Except.ok { name := "cx4", status := "exception",
                    errMsg := some "No such file or directory" } ∧
    "exception" ≠ "success" :=
  ⟨rfl, by decide⟩

/-- Claim C4 (amended): for a job that reaches process execution and
whose process runs to completion, a non-zero exit code yields an
`error` Outcome carrying the captured stderr text verbatim, and a zero
exit code yields a `success` Outcome PROVIDED the post-success XML
copy succeeds (if the copy fails the job yields an `exception`
Outcome instead; see the counterexample and Claim C5).
src/OMT.py lines 116-134. -/
theorem run_nmap_exit_code_classification
    (scan : Scan) (args : String) (tmo : Option Nat) (d : String)
    (e : JobEnv) (proc : ProcBehavior)
    (htarget : pyFalsyStr scan.target = false)
    (hspawn : e.spawn = Except.ok proc) :
    (proc.exitCode ≠ 0 →
      run_nmap scan args tmo d e
        = Except.ok { name := scan.name.getD "scan", status := "error",
                      stderr := some proc.stderrText }) ∧
    (proc.exitCode = 0 → e.copy = CopyResult.ok →
      run_nmap scan args tmo d e
        = Except.ok { name := scan.name.getD "scan", status := "success",
                      output := some (joinPath d
                        (scan_filename (scan.name.getD "scan")
                          e.timestamp)) }) := by
  constructor
  · intro hne
    simp [run_nmap, htarget, hspawn, hne]
  · intro heq hcopy
    simp [run_nmap, htarget, hspawn, heq, hcopy]

/-- Concrete instantiation of `run_nmap_exit_code_classification`:
a process exiting 1 with stderr text "boom" is classified `error`
carrying that text, and a process exiting 0 whose XML copy succeeds
is classified `success`. -/
theorem run_nmap_exit_code_classification_witness :
    run_nmap { name := some "w4", target := some "10.0.0.5" } "-A" none
      "out"
      { timestamp := "20240102_030405",
        spawn := Except.ok
          { exitCode := 1, stdoutLines := [], stderrText := "boom",
            durationSeconds := 3 },
        copy := CopyResult.ok }
      = Except.ok { name := "w4", status := "error",
                    stderr := some "boom" } ∧
    run_nmap { name := some "w4b", target := some "10.0.0.6" } "-A" none
      "out"
      { timestamp := "20240102_030406",
        spawn := Except.ok
          { exitCode := 0, stdoutLines := [], stderrText := "",
            durationSeconds := 3 },
        copy := CopyResult.ok }
      = Except.ok { name := "w4b", status := "success",
                    output := some "out/w4b_20240102_030406" } :=
  ⟨(run_nmap_exit_code_classification
      { name := some "w4", target := some "10.0.0.5" } "-A" none "out"
      { timestamp := "20240102_030405",
        spawn := Except.ok
          { exitCode := 1, stdoutLines := [], stderrText := "boom",
            durationSeconds := 3 },
        copy := CopyResult.ok }
      { exitCode := 1, stdoutLines := [], stderrText := "boom",
        durationSeconds := 3 }
      (by decide) rfl).1 (by decide),
   (run_nmap_exit_code_classification
      { name := some "w4b", target := some "10.0.0.6" } "-A" none "out"
      { timestamp := "20240102_030406",
        spawn := Except.ok
          { exitCode := 0, stdoutLines := [], stderrText := "",
            durationSeconds := 3 },
        copy := CopyResult.ok }
      { exitCode := 0, stdoutLines := [], stderrText := "",
        durationSeconds := 3 }
      (by decide) rfl).2 rfl rfl⟩

/-- Claim C5: when the process exits 0 but the copy of the XML output
to the `<name>_latest.xml` path fails, `run_nmap` RETURNS (does not
raise) an `exception` Outcome carrying the description of the copy
error. The `shutil.copy2` call at src/OMT.py line 126 is inside the
try block, so its exception is caught by the handler at
lines 141-147, which returns a dict with `status` `exception` and
`error` set to `str(e)`. -/
theorem copy_failure_yields_exception_outcome
    (scan : Scan) (args : String) (tmo : Option Nat) (d : String)
    (e : JobEnv) (proc : ProcBehavior) (msg : String)
    (htarget : pyFalsyStr scan.target = false)
    (hspawn : e.spawn = Except.ok proc)
    (hexit : proc.exitCode = 0)
    (hcopy : e.copy = CopyResult.fail msg) :
    run_nmap scan args tmo d e
      = Except.ok { name := scan.name.getD "scan", status := "exception",
                    errMsg := some msg } := by
  simp [run_nmap, htarget, hspawn, hexit, hcopy]

/-- Concrete instantiation of `copy_failure_yields_exception_outcome`:
the expected XML file is missing, so the copy fails and the job is
reported as an `exception` Outcome with the error text. -/
theorem copy_failure_yields_exception_outcome_witness :
    run_nmap { name := some "w5", target := some "10.0.0.7" } "-sV"
      (some 60) "results"
      { timestamp := "20240103_000000",
        spawn := Except.ok
          { exitCode := 0, stdoutLines := ["Stats: 50%"], stderrText := "",
            durationSeconds := 4 },
        copy := CopyResult.fail "missing xml output file" }
      = Except.ok { name := "w5", status := "exception",
                    errMsg := some "missing xml output file" } :=
  copy_failure_yields_exception_outcome
    { name := some "w5", target := some "10.0.0.7" } "-sV" (some 60)
    "results"
    { timestamp := "20240103_000000",
      spawn := Except.ok
        { exitCode := 0, stdoutLines := ["Stats: 50%"], stderrText := "",
          durationSeconds := 4 },
      copy := CopyResult.fail "missing xml output file" }
    { exitCode := 0, stdoutLines := ["Stats: 50%"], stderrText := "",
      durationSeconds := 4 }
    "missing xml output file" (by decide) rfl rfl rfl

/-- Every token produced by `splitWsAux` is nonempty and free of
whitespace, provided the partial token `acc` contains no whitespace. -/
theorem splitWsAux_tokens_good (l : List Char) (acc : List Char)
    (hacc : ∀ c ∈ acc, c.isWhitespace = false) :
    ∀ t ∈ splitWsAux l acc, t ≠ [] ∧ ∀ c ∈ t, c.isWhitespace = false := by
  induction l generalizing acc with
  | nil =>
    intro t ht
    unfold splitWsAux at ht
    by_cases h : acc.isEmpty = true
    · rw [if_pos h] at ht
      exact absurd ht (List.not_mem_nil t)
    · rw [if_neg h] at ht
      have heq : t = acc.reverse := by simpa using ht
      subst heq
      constructor
      · simp only [ne_eq, List.reverse_eq_nil_iff]
        intro hnil
        exact h (by simp [hnil])
      · intro x hx
        exact hacc x (List.mem_reverse.mp hx)
  | cons c cs ih =>
    intro t ht
    unfold splitWsAux at ht
    by_cases hw : c.isWhitespace = true
    · rw [if_pos hw] at ht
      by_cases h : acc.isEmpty = true
      · rw [if_pos h] at ht
        exact ih [] (by simp) t ht
      · rw [if_neg h] at ht
        rcases List.mem_cons.mp ht with heq | hmem
        · subst heq
          constructor
          · simp only [ne_eq, List.reverse_eq_nil_iff]
            intro hnil
            exact h (by simp [hnil])
          · intro x hx
            exact hacc x (List.mem_reverse.mp hx)
        · exact ih [] (by simp) t hmem
    · rw [if_neg hw] at ht
      refine ih (c :: acc) ?_ t ht
      intro x hx
      rcases List.mem_cons.mp hx with heq | hx2
      · subst heq
        simpa using hw
      · exact hacc x hx2

/-- Concatenating the tokens of `splitWsAux` recovers exactly the
non-whitespace characters of the input, in order, prefixed by the
reversed partial token. -/
theorem splitWsAux_join (l : List Char) (acc : List Char) :
    (splitWsAux l acc).foldr (· ++ ·) []
      = acc.reverse ++ l.filter (fun c => !c.isWhitespace) := by
  induction l generalizing acc with
  | nil =>
    unfold splitWsAux
    by_cases h : acc.isEmpty
    · have : acc = [] := by simpa using h
      simp [h, this]
    · simp [h]
  | cons c cs ih =>
    unfold splitWsAux
    by_cases hw : c.isWhitespace
    · by_cases h : acc.isEmpty
      · have hnil : acc = [] := by simpa using h
        simp [hw, h, hnil, ih]
      · simp [hw, h, ih]
    · rw [if_neg hw, ih (c :: acc)]
      simp [hw]

/-- Claim C6: the argv handed to the external process is exactly the
tool name `nmap`, then the shared argument string split on whitespace
into discrete tokens (each token nonempty and whitespace-free, and
together containing exactly the non-whitespace characters of the
argument string in order), then the target, then `-oA` and the
per-job output file path — built as a token list (`subprocess.Popen`
on a list, never through a shell). src/OMT.py lines 84-90 and 98-105. -/
theorem build_cmd_shape (args target output_file : String) :
    build_cmd args target output_file
      = "nmap" :: (pySplit args ++ [target, "-oA", output_file]) ∧
    (∀ t ∈ pySplit args,
      t.data ≠ [] ∧ ∀ c ∈ t.data, c.isWhitespace = false) ∧
    (pySplit args).foldr (fun t r => t.data ++ r) []
      = args.data.filter (fun c => !c.isWhitespace) := by
  refine ⟨rfl, ?_, ?_⟩
  · intro t ht
    unfold pySplit at ht
    rcases List.mem_map.mp ht with ⟨l, hl, rfl⟩
    exact splitWsAux_tokens_good args.data [] (by simp) l hl
  · unfold pySplit
    rw [List.foldr_map]
    exact splitWsAux_join args.data []

/-- Concrete instantiation of `build_cmd_shape` on the config of the
end-to-end scenario of the spec: `args` is a two-flag string with
doubled spaces, split into clean tokens. -/
theorem build_cmd_shape_witness :
    build_cmd " -sV  -T4 " "10.0.0.1" "results/web_20240101_000000"
      = ["nmap", "-sV", "-T4", "10.0.0.1", "-oA",
         "results/web_20240101_000000"] := by
  have h := (build_cmd_shape " -sV  -T4 " "10.0.0.1"
    "results/web_20240101_000000").1
  rw [h]
  rfl

/-- Claim C7: for two jobs of the same batch with the same `name`,
launch timestamps that differ (at the one-second resolution of
`%Y%m%d_%H%M%S`) give two distinct per-job output paths
(src/OMT.py lines 77-79), whereas the `<name>_latest.xml` path
(line 125) is the same for both; successive successful copies onto
that shared path are last-writer-wins, so after both complete the
latest file reflects whichever job completed last, in either
completion order. -/
theorem same_name_distinct_outputs_shared_latest
    (d n1 n2 t1 t2 x1 x2 : String) (hn : n1 = n2) (ht : t1 ≠ t2) :
    joinPath d (scan_filename n1 t1) ≠ joinPath d (scan_filename n2 t2) ∧
    latest_path d n1 = latest_path d n2 ∧
    apply_copies [x1, x2] = some x2 ∧
    apply_copies [x2, x1] = some x1 := by
  subst hn
  refine ⟨?_, rfl, rfl, rfl⟩
  intro h
  apply ht
  unfold joinPath scan_filename at h
  exact string_append_cancel_left (string_append_cancel_left h)

/-- Concrete instantiation of
`same_name_distinct_outputs_shared_latest`: two jobs both named
`dup`, launched one second apart, write to two distinct output paths
while sharing the single `results/dup_latest.xml` path. -/
theorem same_name_distinct_outputs_shared_latest_witness :
    joinPath "results" (scan_filename "dup" "20240101_000001")
      ≠ joinPath "results" (scan_filename "dup" "20240101_000002") ∧
    latest_path "results" "dup" = latest_path "results" "dup" ∧
    apply_copies ["results/dup_20240101_000001.xml",
                  "results/dup_20240101_000002.xml"]
      = some "results/dup_20240101_000002.xml" ∧
    apply_copies ["results/dup_20240101_000002.xml",
                  "results/dup_20240101_000001.xml"]
      = some "results/dup_20240101_000001.xml" :=
  same_name_distinct_outputs_shared_latest "results" "dup" "dup"
    "20240101_000001" "20240101_000002"
    "results/dup_20240101_000001.xml" "results/dup_20240101_000002.xml"
    rfl (by decide)

/-- Claim C8: the concurrency limit computed at src/OMT.py line 184 is
exactly `min(4, len(scans))`: never more worker slots than jobs, and
never more than the fixed ceiling 4. -/
theorem max_workers_capped (scans : List Scan) :
    max_workers scans = min 4 scans.length ∧
    max_workers scans ≤ scans.length ∧
    max_workers scans ≤ 4 :=
  ⟨rfl, Nat.min_le_right 4 scans.length, Nat.min_le_left 4 scans.length⟩

/-- Claim C9: a config whose `scans` list is missing or empty, or
whose `args` string is missing (or empty, equally falsy in Python),
makes `main` abort via `sys.exit(1)` at src/OMT.py lines 170-175,
before the thread pool at line 187 is ever created: the run is fatal
and zero jobs are submitted, so no external process is launched. -/
theorem precondition_violation_aborts_before_scheduling
    (config : Config)
    (h : config.scans.getD [] = [] ∨ pyFalsyStr config.args = true) :
    (main_setup config).isFatal = true ∧
    (main_setup config).jobsSubmitted = 0 := by
  unfold main_setup
  rcases h with h | h
  · simp [h, MainPhase.isFatal, MainPhase.jobsSubmitted]
  · by_cases hs : (config.scans.getD []).isEmpty = true
    · simp [hs, MainPhase.isFatal, MainPhase.jobsSubmitted]
    · simp [hs, h, MainPhase.isFatal, MainPhase.jobsSubmitted]

/-- Concrete instantiation of
`precondition_violation_aborts_before_scheduling`: a config with one
valid scan but no `args` key aborts fatally with zero jobs
submitted. -/
theorem precondition_violation_aborts_before_scheduling_witness :
    (main_setup { scans := some [{ name := some "web",
                                   target := some "10.0.0.1" }],
                  args := none, timeout := some 30 }).isFatal = true ∧
    (main_setup { scans := some [{ name := some "web",
                                   target := some "10.0.0.1" }],
                  args := none, timeout := some 30 }).jobsSubmitted
      = 0 :=
  precondition_violation_aborts_before_scheduling
    { scans := some [{ name := some "web", target := some "10.0.0.1" }],
      args := none, timeout := some 30 }
    (Or.inr rfl)

/-- Claim C10: whenever the scan dict has a non-empty string `target`
(the shared `args` being a string is built into the embedding type),
`run_nmap` returns normally — never raises — and the returned dict
always carries the `name` key (defaulted to `scan`) and a `status`
among `success`, `error`, `timeout`, `exception`, across every
behaviour of the spawned process, of the exit code and of the XML
copy. src/OMT.py lines 47-147. -/
theorem run_nmap_total_on_valid_target
    (scan : Scan) (args : String) (tmo : Option Nat) (d : String)
    (e : JobEnv) (t : String)
    (htarget : scan.target = some t) (hne : t ≠ "") :
    ∃ r, run_nmap scan args tmo d e = Except.ok r ∧
      r.name = scan.name.getD "scan" ∧
      r.status ∈ (["success", "error", "timeout", "exception"]
        : List String) := by
  have hfalsy : pyFalsyStr scan.target = false := by
    rw [htarget]
    unfold pyFalsyStr
    rw [Bool.eq_false_iff]
    intro habs
    exact hne ((String.isEmpty_iff t).mp habs)
  obtain ⟨ts, spawn, copy⟩ := e
  rcases spawn with m | proc
  · exact ⟨{ name := scan.name.getD "scan", status := "exception",
             errMsg := some m },
      by simp [run_nmap, hfalsy], rfl, by simp⟩
  · by_cases hc : proc.exitCode = 0
    · rcases copy with _ | msg
      · exact ⟨{ name := scan.name.getD "scan", status := "success",
                 output := some (joinPath d
                   (scan_filename (scan.name.getD "scan") ts)) },
          by simp [run_nmap, hfalsy, hc], rfl, by simp⟩
      · exact ⟨{ name := scan.name.getD "scan", status := "exception",
                 errMsg := some msg },
          by simp [run_nmap, hfalsy, hc], rfl, by simp⟩
    · exact ⟨{ name := scan.name.getD "scan", status := "error",
               stderr := some proc.stderrText },
        by simp [run_nmap, hfalsy, hc], rfl, by simp⟩

/-- Concrete instantiation of `run_nmap_total_on_valid_target`: a
valid target and a spawn failure (missing nmap binary) still return a
classified result dict. -/
theorem run_nmap_total_on_valid_target_witness :
    ∃ r, run_nmap { name := some "w10", target := some "192.168.0.9" }
        "-sS -p 1-1000" none "scans"
        { timestamp := "20240104_000000",
          spawn := Except.error "No such file or directory: nmap",
          copy := CopyResult.ok }
        = Except.ok r ∧
      r.name = (some "w10").getD "scan" ∧
      r.status ∈ (["success", "error", "timeout", "exception"]
        : List String) :=
  run_nmap_total_on_valid_target
    { name := some "w10", target := some "192.168.0.9" }
    "-sS -p 1-1000" none "scans"
    { timestamp := "20240104_000000",
      spawn := Except.error "No such file or directory: nmap",
      copy := CopyResult.ok }
    "192.168.0.9" rfl (by decide)
